/-
Verification of the socana alert pipeline (ingestion → fingerprint/dedup →
classification → dispatch) against its natural-language specification.

The Python sources under src/soc_core are shallowly embedded:
  * Python `str` is Lean `String` (operations are modelled on `String.data`,
    the underlying `List Char`, so that everything reduces in the kernel);
  * `datetime` values are UTC epoch seconds, modelled as `Int`
    (the `_as_utc` normalisation of naive SQLite datetimes collapses to the
    identity under this representation);
  * database tables are in-memory lists of row structures, SQLAlchemy
    sessions become explicit state passing;
  * network effects (Telegram sends) are an oracle `sendOk : Int → Bool`;
  * the sha256 digest of the fingerprint is an abstract `h : String → String`.
-/
import Mathlib

namespace Socana

/-! ## Python string primitives

`pystrip`, `pylower`, `pyupper` model Python `str.strip()` / `.lower()` /
`.upper()` (the Lean char case maps are ASCII-only, which covers every
case-sensitive comparison the sources perform on ASCII identifiers). -/

/-- Drop whitespace from both ends of a character list (Python `str.strip()`). -/
def stripList (l : List Char) : List Char :=
  ((l.dropWhile Char.isWhitespace).reverse.dropWhile Char.isWhitespace).reverse

/-- Python `s.strip()`. -/
def pystrip (s : String) : String := ⟨stripList s.data⟩

/-- Python `s.lower()` (ASCII case folding). -/
def pylower (s : String) : String := ⟨s.data.map Char.toLower⟩

/-- Python `s.upper()` (ASCII case folding). -/
def pyupper (s : String) : String := ⟨s.data.map Char.toUpper⟩

/-- Python `needle in hay` substring test. -/
def pyIn (needle hay : String) : Bool :=
  hay.data.tails.any fun t => needle.data.isPrefixOf t

/-- Python truthiness-respecting `opt or default` for optional strings:
`None` and `""` both fall through to the default. -/
def pyOr (o : Option String) (d : String) : String :=
  match o with
  | none => d
  | some s => if s = "" then d else s

/-- String join, `sep.join(parts)` (structural recursion, kernel-reducible). -/
def intercalateStr (sep : String) : List String → String
  | [] => ""
  | [x] => x
  | x :: y :: xs => x ++ sep ++ intercalateStr sep (y :: xs)

/-- Split a character list at a separator character (Python `str.split(sep)`). -/
def splitOnChar (sep : Char) : List Char → List (List Char)
  | [] => [[]]
  | c :: t =>
    let r := splitOnChar sep t
    if c == sep then [] :: r
    else
      match r with
      | h :: t2 => (c :: h) :: t2
      | [] => [[c]]

/-! ### Case folding commutes with stripping -/

theorem char_toNat_ofNat {n : Nat} (h : n < 0xd800) : (Char.ofNat n).toNat = n := by
  have hv : n.isValidChar := Or.inl h
  rw [Char.ofNat, dif_pos hv]
  simp [Char.ofNatAux, Char.toNat, UInt32.toNat]

theorem isWhitespace_toLower (c : Char) : c.toLower.isWhitespace = c.isWhitespace := by
  by_cases h : 65 ≤ c.toNat ∧ c.toNat ≤ 90
  · have h1 : c.toLower = Char.ofNat (c.toNat + 32) := by
      rw [Char.toLower, if_pos h]
    have h2 : c.toLower.toNat = c.toNat + 32 := by
      rw [h1, char_toNat_ofNat (by omega)]
    have hws : ∀ d : Char, d.isWhitespace = true →
        d.toNat = 32 ∨ d.toNat = 9 ∨ d.toNat = 13 ∨ d.toNat = 10 := by
      intro d hd
      simp only [Char.isWhitespace, Bool.or_eq_true, decide_eq_true_eq] at hd
      rcases hd with ((h' | h') | h') | h' <;> subst h' <;> simp [Char.toNat]
    have hl : c.toLower.isWhitespace = false := by
      cases hh : c.toLower.isWhitespace
      · rfl
      · exact absurd (hws _ hh) (by omega)
    have hr : c.isWhitespace = false := by
      cases hh : c.isWhitespace
      · rfl
      · exact absurd (hws _ hh) (by omega)
    rw [hl, hr]
  · rw [Char.toLower, if_neg h]

theorem stripList_map_toLower (l : List Char) :
    stripList (l.map Char.toLower) = (stripList l).map Char.toLower := by
  have hp : (Char.isWhitespace ∘ Char.toLower) = Char.isWhitespace :=
    funext fun c => isWhitespace_toLower c
  unfold stripList
  rw [List.dropWhile_map, hp, ← List.map_reverse, List.dropWhile_map, hp, ← List.map_reverse]

theorem pystrip_pylower (s : String) : pystrip (pylower s) = pylower (pystrip s) := by
  unfold pystrip pylower
  exact congrArg String.mk (stripList_map_toLower s.data)

/-! ## Dedup/Burst engine (src/soc_core/database.py, `Database.should_send_alert`)

The per-fingerprint suppression state. `DedupORM` columns map to fields;
datetimes are `Int` UTC seconds, so the `_as_utc` normalisation of naive
datetimes read back from SQLite is the identity here. -/

structure DedupRecord where
  first_seen_utc : Int
  last_seen_utc : Int
  count : Nat
  last_alert_at_utc : Option Int
  last_email_id : Option Int
deriving DecidableEq, Repr

/-- Core decision of `Database.should_send_alert`, as a pure function from the
current row (or `none` when the fingerprint has no row) to the written row and
the returned `(send_alert, current_count)` pair. -/
def should_send_alert (row : Option DedupRecord) (now_utc : Int)
    (window_seconds : Int) (repeat_threshold : Nat) (email_id : Int) :
    DedupRecord × Bool × Nat :=
  match row with
  | none =>
    (⟨now_utc, now_utc, 1, some now_utc, some email_id⟩, true, 1)
  | some r0 =>
    let within : Bool := decide (now_utc - r0.last_seen_utc ≤ window_seconds)
    let r1 : DedupRecord :=
      { r0 with last_seen_utc := now_utc, count := r0.count + 1,
                last_email_id := some email_id }
    if within = false then
      ({ r1 with last_alert_at_utc := some now_utc }, true, r1.count)
    else if (decide (r1.count ≥ repeat_threshold) &&
        (match r1.last_alert_at_utc with
         | none => true
         | some t => decide (now_utc - t > window_seconds))) = true then
      ({ r1 with last_alert_at_utc := some now_utc }, true, r1.count)
    else
      (r1, false, r1.count)

/-- Iterate the dedup decision over a list of `(now, window, threshold, email_id)`
sightings, keeping only the stored row (models repeated calls for one
fingerprint). -/
def runDedup (r : DedupRecord) : List (Int × Int × Nat × Int) → DedupRecord
  | [] => r
  | (now, w, t, e) :: rest => runDedup (should_send_alert (some r) now w t e).1 rest

/-- The burst condition of the spec, in terms of the pre-call row: the observation
gap exceeded the window, or the post-increment count reached the threshold while
no alert fired within the last window. -/
def alertCondition (r : DedupRecord) (now_utc window_seconds : Int)
    (repeat_threshold : Nat) : Prop :=
  now_utc - r.last_seen_utc > window_seconds ∨
    (r.count + 1 ≥ repeat_threshold ∧
      (r.last_alert_at_utc = none ∨
        ∃ t, r.last_alert_at_utc = some t ∧ now_utc - t > window_seconds))

/-- C1: for an existing dedup row, the decision always writes `last_seen = now`
and increments `count` by exactly one (also returning the incremented count);
it alerts iff the observation gap exceeds the window, or the incremented count
reaches the repeat threshold with no alert inside the current window; and
whenever it alerts it writes `last_alert_at = now`. -/
theorem dedup_existing_record_decision (r : DedupRecord) (now win : Int)
    (thr : Nat) (eid : Int) :
    (should_send_alert (some r) now win thr eid).1.last_seen_utc = now ∧
    (should_send_alert (some r) now win thr eid).1.count = r.count + 1 ∧
    (should_send_alert (some r) now win thr eid).2.2 = r.count + 1 ∧
    ((should_send_alert (some r) now win thr eid).2.1 = true ↔
      alertCondition r now win thr) ∧
    ((should_send_alert (some r) now win thr eid).2.1 = true →
      (should_send_alert (some r) now win thr eid).1.last_alert_at_utc = some now) := by
  rcases hla : r.last_alert_at_utc with _ | t <;>
    by_cases hw : now - r.last_seen_utc ≤ win
  · by_cases hb : r.count + 1 ≥ thr
    · simp [should_send_alert, alertCondition, hla, hw, hb]
    · simp [should_send_alert, alertCondition, hla, hw, hb]
  · simp [should_send_alert, alertCondition, hla, hw]
    omega
  · by_cases hb : r.count + 1 ≥ thr
    · by_cases hg : now - t > win
      · simp [should_send_alert, alertCondition, hla, hw, hb, hg]
      · simp [should_send_alert, alertCondition, hla, hw, hb, hg]
    · simp [should_send_alert, alertCondition, hla, hw, hb]
  · simp [should_send_alert, alertCondition, hla, hw]
    omega

/-- C2: with no existing row for the fingerprint, the decision creates a row
with `count = 1` and `first_seen = last_seen = last_alert_at = now` (recording
the triggering email), and returns `(shouldAlert := true, runningCount := 1)`. -/
theorem dedup_first_sighting (now win : Int) (thr : Nat) (eid : Int) :
    should_send_alert none now win thr eid =
      (⟨now, now, 1, some now, some eid⟩, true, 1) := rfl

theorem dedup_preserves_alert_at (r : DedupRecord) (now w : Int) (t : Nat) (e : Int)
    (h : r.last_alert_at_utc.isSome = true) :
    (should_send_alert (some r) now w t e).1.last_alert_at_utc.isSome = true := by
  rcases hla : r.last_alert_at_utc with _ | ta
  · rw [hla] at h; simp at h
  · by_cases hw : now - r.last_seen_utc ≤ w
    · by_cases hb : r.count + 1 ≥ t <;> by_cases hg : now - ta > w <;>
        simp [should_send_alert, hla, hw, hb, hg]
    · simp [should_send_alert, hla, hw]

/-- C9: a dedup row created by the engine has `last_alert_at` set from creation
onward — the creation path writes `now`, and every later decision either keeps
the field or overwrites it with `now` — so the `last_alert_at is unset`
disjunct of the burst condition can never fire for an engine-created row. -/
theorem dedup_alert_at_always_set (now0 w0 : Int) (t0 : Nat) (e0 : Int)
    (steps : List (Int × Int × Nat × Int)) :
    (runDedup (should_send_alert none now0 w0 t0 e0).1 steps).last_alert_at_utc.isSome
      = true := by
  have hstart : (should_send_alert none now0 w0 t0 e0).1.last_alert_at_utc.isSome = true := rfl
  generalize hgen : (should_send_alert none now0 w0 t0 e0).1 = r at hstart ⊢
  clear hgen
  induction steps generalizing r with
  | nil => exact hstart
  | cons s rest ih =>
    obtain ⟨now, w, t, e⟩ := s
    exact ih _ (dedup_preserves_alert_at r now w t e hstart)

/-! ## Canonical event model (src/soc_core/models.py) -/

/-- Model of `AssetType` enum. -/
inductive AssetType
  | UNCLASSIFIED
  | SERVER
  | WORKSTATION
deriving DecidableEq, Repr

/-- Model of `RiskLevel` enum. -/
inductive RiskLevel
  | CRITICAL
  | HIGH
  | MEDIUM
  | LOW
  | INFO
deriving DecidableEq, Repr

/-- The `.value` string of a `RiskLevel` member. -/
def riskValue : RiskLevel → String
  | .CRITICAL => "CRITICAL"
  | .HIGH => "HIGH"
  | .MEDIUM => "MEDIUM"
  | .LOW => "LOW"
  | .INFO => "INFO"

/-- The `.value` string of an `AssetType` member. -/
def assetValue : AssetType → String
  | .UNCLASSIFIED => "UNCLASSIFIED"
  | .SERVER => "SERVER"
  | .WORKSTATION => "WORKSTATION"

/-- Model of `KasperskyEvent`: optional string fields; `event_time` is a UTC timestamp. -/
structure KasperskyEvent where
  vendor_severity : Option String := none
  device : Option String := none
  event_type : Option String := none
  detection_name : Option String := none
  object_path : Option String := none
  process_name : Option String := none
  sha256 : Option String := none
  user : Option String := none
  result : Option String := none
  event_time : Option Int := none
deriving DecidableEq, Repr

/-- One fingerprint part: `(field or "").strip().lower()`. -/
def canonField (x : Option String) : String := pylower (pystrip (x.getD ""))

/-- The pre-hash fingerprint payload of `KasperskyEvent.fingerprint`:
`"|".join` of the five canonicalised parts (device, event_type,
detection_name, object_path, result). -/
def fingerprintData (e : KasperskyEvent) : String :=
  intercalateStr "|"
    [canonField e.device, canonField e.event_type, canonField e.detection_name,
     canonField e.object_path, canonField e.result]

/-- Model of `KasperskyEvent.fingerprint`: the sha256 hexdigest of the utf-8 encoding of
`fingerprintData`. The digest itself is an external primitive, abstracted as a
function `h : String → String`; every claim about the fingerprint is proved for
an arbitrary `h`, which is exactly what determinism of the hash provides. -/
def fingerprint (h : String → String) (e : KasperskyEvent) : String :=
  h (fingerprintData e)

/-- Two optional fields that, in the sense of the spec, agree up to letter case
(`.map pylower` equal), or up to surrounding whitespace (`.map pystrip` equal);
plain equality is a special case of either disjunct. An absent field only
relates to an absent field. -/
def fieldVariant (a b : Option String) : Prop :=
  a.map pylower = b.map pylower ∨ a.map pystrip = b.map pystrip

theorem canonField_of_fieldVariant {a b : Option String} (hv : fieldVariant a b) :
    canonField a = canonField b := by
  rcases hv with hl | hs
  · rcases a with _ | x <;> rcases b with _ | y <;> simp only [Option.map] at hl
    · rfl
    · cases hl
    · cases hl
    · have hxy : pylower x = pylower y := by injection hl
      unfold canonField
      simp only [Option.getD]
      rw [← pystrip_pylower, hxy, pystrip_pylower]
  · rcases a with _ | x <;> rcases b with _ | y <;> simp only [Option.map] at hs
    · rfl
    · cases hs
    · cases hs
    · have hxy : pystrip x = pystrip y := by injection hs
      unfold canonField
      simp only [Option.getD]
      have hsx : pystrip (pystrip x) = pystrip (pystrip y) := by rw [hxy]
      unfold pystrip at hxy ⊢
      rw [hxy]

/-- C3: the fingerprint is a deterministic hash of exactly the five fields
(device, event_type, detection_name, object_path, result), lower-cased and
trimmed, with absent fields contributing empty strings. Hence two events whose
five identity fields pairwise agree up to letter case or surrounding
whitespace — in particular events that agree exactly, events differing only in
non-identity fields, and events sharing the same absent field — have equal
fingerprints, for every hash function `h`. -/
theorem fingerprint_case_whitespace_insensitive (h : String → String)
    (e1 e2 : KasperskyEvent)
    (hdev : fieldVariant e1.device e2.device)
    (hety : fieldVariant e1.event_type e2.event_type)
    (hdet : fieldVariant e1.detection_name e2.detection_name)
    (hobj : fieldVariant e1.object_path e2.object_path)
    (hres : fieldVariant e1.result e2.result) :
    fingerprint h e1 = fingerprint h e2 := by
  unfold fingerprint fingerprintData
  rw [canonField_of_fieldVariant hdev, canonField_of_fieldVariant hety,
      canonField_of_fieldVariant hdet, canonField_of_fieldVariant hobj,
      canonField_of_fieldVariant hres]

/-- Witness for C3: two concrete events differing by case in `detection_name`,
by surrounding whitespace in `device`, and by the non-identity field `sha256`,
have the same fingerprint (with the hash instantiated to `id`). -/
theorem fingerprint_case_whitespace_insensitive_witness :
    fingerprint id { device := some "HOST-01  ", detection_name := some "Trojan.Win32.Agent",
                     sha256 := some "aa" } =
    fingerprint id { device := some " HOST-01", detection_name := some "trojan.win32.agent",
                     sha256 := some "bb" } :=
  fingerprint_case_whitespace_insensitive id _ _
    (Or.inr (by decide)) (Or.inl (by decide)) (Or.inl (by decide))
    (Or.inl (by decide)) (Or.inl (by decide))

/-! ## Risk classifier (src/soc_core/tasks.py) -/

/-- Model of `_severity_rank`: rank of the vendor-reported severity string. -/
def severity_rank (vendor_severity : Option String) : Nat :=
  match vendor_severity with
  | none => 0
  | some v =>
    if v = "" then 0
    else
      let s := pylower (pystrip v)
      if s = "critical" ∨ s = "high" then 3
      else if s = "medium" ∨ s = "moderate" then 2
      else if s = "low" then 1
      else 0

/-- Model of `EnrichedEvent`. -/
structure EnrichedEvent where
  event : KasperskyEvent
  asset_type : Option AssetType
  risk_level : RiskLevel
  risk_reason : Option String
deriving DecidableEq, Repr

/-- Model of `enrich_with_rules`: the deterministic first-match rule engine. Note the
threat-marker rule checks `ransomware`/`malware`/`exploit` in the event type
but only `ransomware`/`exploit` in the detection name. -/
def enrich_with_rules (event : KasperskyEvent) (asset_type : Option AssetType) :
    EnrichedEvent :=
  let et := pylower (pyOr event.event_type "")
  let dn := pylower (pyOr event.detection_name "")
  if pyIn "ransomware" et || pyIn "malware" et || pyIn "exploit" et ||
      pyIn "ransomware" dn || pyIn "exploit" dn then
    ⟨event, asset_type, .CRITICAL, some "Threat category escalated to CRITICAL (rules)"⟩
  else if asset_type = some AssetType.SERVER ∧ severity_rank event.vendor_severity ≥ 2 then
    ⟨event, asset_type, .HIGH, some "Critical Asset Involved"⟩
  else if asset_type = some AssetType.UNCLASSIFIED ∧ severity_rank event.vendor_severity ≥ 3 then
    ⟨event, asset_type, .HIGH, some "Asset is UNCLASSIFIED (needs classification)"⟩
  else if asset_type = some AssetType.UNCLASSIFIED ∧ severity_rank event.vendor_severity = 2 then
    ⟨event, asset_type, .HIGH, some "Soft escalation: UNCLASSIFIED + Medium severity"⟩
  else
    let sev := severity_rank event.vendor_severity
    let rl : RiskLevel :=
      if sev ≥ 3 then .HIGH else if sev = 2 then .MEDIUM else if sev = 1 then .LOW else .INFO
    let reason : Option String :=
      if asset_type = some AssetType.UNCLASSIFIED then
        some "Asset is UNCLASSIFIED (needs classification)"
      else none
    ⟨event, asset_type, rl, reason⟩

/-- Counterexample to C5 as stated: a detection name containing the `malware`
marker (with no marker in the event type) is not escalated — the code checks
only `ransomware` and `exploit` in the detection name — so this event
classifies as INFO, not CRITICAL. -/
theorem enrich_malware_detection_not_critical :
    pyIn "malware"
      (pylower (pyOr (KasperskyEvent.mk none none none (some "malware-generic")
        none none none none none none).detection_name "")) = true ∧
    (enrich_with_rules
      (KasperskyEvent.mk none none none (some "malware-generic") none none none none none none)
      (some AssetType.WORKSTATION)).risk_level = RiskLevel.INFO := by
  constructor
  · decide
  · decide

/-- C5 (amended): if the lower-cased event type contains a ransomware, malware
or exploit marker, or the lower-cased detection name contains a ransomware or
exploit marker, the classifier returns CRITICAL with the
threat-category-escalated reason, regardless of asset classification and
vendor severity (the rule precedes all later rules). -/
theorem enrich_threat_marker_critical (ev : KasperskyEvent) (at? : Option AssetType)
    (h : pyIn "ransomware" (pylower (pyOr ev.event_type "")) = true ∨
         pyIn "malware" (pylower (pyOr ev.event_type "")) = true ∨
         pyIn "exploit" (pylower (pyOr ev.event_type "")) = true ∨
         pyIn "ransomware" (pylower (pyOr ev.detection_name "")) = true ∨
         pyIn "exploit" (pylower (pyOr ev.detection_name "")) = true) :
    enrich_with_rules ev at? =
      ⟨ev, at?, .CRITICAL, some "Threat category escalated to CRITICAL (rules)"⟩ := by
  unfold enrich_with_rules
  rcases h with h | h | h | h | h <;> simp [h]

/-- Witness for C5: a ransomware event type on an unclassified asset is
CRITICAL with the escalation reason. -/
theorem enrich_threat_marker_critical_witness :
    enrich_with_rules
        (KasperskyEvent.mk none none (some "Ransomware detected") none none none none none none none)
        (some AssetType.UNCLASSIFIED) =
      ⟨KasperskyEvent.mk none none (some "Ransomware detected") none none none none none none none,
       some AssetType.UNCLASSIFIED, .CRITICAL,
       some "Threat category escalated to CRITICAL (rules)"⟩ :=
  enrich_threat_marker_critical _ _ (Or.inl (by decide))

/-! ## Event extractor (src/soc_core/parser.py)

The MIME/HTML decoding layer (`BytesParser`, `BeautifulSoup`) is external;
the embedding models a single-part `text/plain` message whose headers are
already extracted: `body` is the decoded body, `header_date` the result of
`_guess_date` (which is wrapped in try/except and never raises). Everything
from the body text onwards — the key/value scan, field resolution, regex
fallbacks and the event-time validator — is translated from the source. -/

/-- Python regex `\w` (ASCII fragment). -/
def isWordChar (c : Char) : Bool := c.isAlphanum || c == '_'

/-- Case-insensitive character comparison (ASCII fold, mirroring `re.IGNORECASE`
on the ASCII fragment). -/
def charCI (a b : Char) : Bool := a.toLower == b.toLower

/-- Match a literal case-insensitively at the head, returning the rest. -/
def matchLitCI : List Char → List Char → Option (List Char)
  | [], hay => some hay
  | _ :: _, [] => none
  | n :: ns, h :: hs => if charCI n h then matchLitCI ns hs else none

/-- Match a literal exactly at the head, returning the rest. -/
def matchLitCS : List Char → List Char → Option (List Char)
  | [], hay => some hay
  | _ :: _, [] => none
  | n :: ns, h :: hs => if n == h then matchLitCS ns hs else none

/-- Regex `\s+`: require at least one whitespace character and drop the run. -/
def ws1 (l : List Char) : Option (List Char) :=
  if l.takeWhile Char.isWhitespace = [] then none
  else some (l.dropWhile Char.isWhitespace)

/-- Greedy nonempty character-class capture (`[...]+`). -/
def takeClass1 (p : Char → Bool) (l : List Char) : Option (List Char × List Char) :=
  let tk := l.takeWhile p
  if tk = [] then none else some (tk, l.dropWhile p)

/-- Model of `re.search`: try a position matcher at each suffix, leftmost match wins. -/
def searchFirst {α : Type} (f : List Char → Option α) : List Char → Option α
  | [] => f []
  | c :: t =>
    match f (c :: t) with
    | some r => some r
    | none => searchFirst f t

/-- Position matcher for `_VENDOR_SEV_RE = произошло\s+(\w+)\s+событие`. -/
def vendorSevAt (l : List Char) : Option String := do
  let r1 ← matchLitCI "произошло".data l
  let r2 ← ws1 r1
  let (w, r3) ← takeClass1 isWordChar r2
  let r4 ← ws1 r3
  let _ ← matchLitCI "событие".data r4
  pure ⟨w⟩

/-- Model of `_VENDOR_SEV_RE.search(s)` followed by `.group(1).strip()`. -/
def vendor_sev_search (s : String) : Option String :=
  (searchFirst vendorSevAt s.data).map pystrip

/-- Character class `[A-Za-z0-9_.-]` of `_DEVICE_RE`. -/
def isDeviceChar (c : Char) : Bool := c.isAlphanum || c == '_' || c == '.' || c == '-'

/-- Position matcher for `_DEVICE_RE = произошло на устройстве\s+([A-Za-z0-9_.-]+)`. -/
def deviceAt (l : List Char) : Option String := do
  let r1 ← matchLitCI "произошло на устройстве".data l
  let r2 ← ws1 r1
  let (w, _) ← takeClass1 isDeviceChar r2
  pure ⟨w⟩

/-- Model of `_DEVICE_RE.search(s)` followed by `.group(1).strip()`. -/
def device_search (s : String) : Option String :=
  (searchFirst deviceAt s.data).map pystrip

/-- Position matcher for `_EVENT_QUOTED_RE = событие\s+"([^"]+)"`. -/
def eventQuotedAt (l : List Char) : Option String := do
  let r1 ← matchLitCI "событие".data l
  let r2 ← ws1 r1
  match r2 with
  | '"' :: r3 =>
    match takeClass1 (fun c => c != '"') r3 with
    | some (w, '"' :: _) => pure ⟨w⟩
    | _ => none
  | _ => none

/-- Model of `_EVENT_QUOTED_RE.search(s)` followed by `.group(1).strip()`. -/
def event_quoted_search (s : String) : Option String :=
  (searchFirst eventQuotedAt s.data).map pystrip

/-- Regex class `[a-fA-F0-9]`. -/
def isHexChar (c : Char) : Bool :=
  c.isDigit || (97 ≤ c.toNat && c.toNat ≤ 102) || (65 ≤ c.toNat && c.toNat ≤ 70)

/-- Match `[a-fA-F0-9]{64}\b` at the current position. -/
def hexRun64At (l : List Char) : Option String :=
  let tk := l.take 64
  if tk.length = 64 && tk.all isHexChar then
    match l.drop 64 with
    | [] => some ⟨tk⟩
    | c :: _ => if isWordChar c then none else some ⟨tk⟩
  else none

/-- Scan for `\b[a-fA-F0-9]{64}\b`, tracking the previous character for the
leading word boundary. -/
def sha256SearchAux : Option Char → List Char → Option String
  | _, [] => none
  | prev, c :: t =>
    let bOk := match prev with | none => true | some p => !isWordChar p
    match (if bOk then hexRun64At (c :: t) else none) with
    | some r => some r
    | none => sha256SearchAux (some c) t

/-- The sha256 fallback scan `re.search(r"\b[a-fA-F0-9]{64}\b", raw_text)`. -/
def sha256_fallback (s : String) : Option String := sha256SearchAux none s.data

/-- Model of `_KV_RE.match` on one line: `^\s*([^:\n]{2,80})\s*:\s*(.*?)\s*$`. Splitting
at the first colon, the regex admits a match exactly when the prefix has at
least 2 characters and its non-whitespace-led core has at most 80 (whitespace
may be donated between `\s*` and the greedy group); the captured key always
strips to `prefix.strip()`. Keeps the pair only when both the lower-cased
stripped key and the stripped value are nonempty, as in `_parse_kv_stream`. -/
def parse_kv_line (line : String) : Option (String × String) :=
  let pre := line.data.takeWhile (fun c => c != ':')
  match line.data.dropWhile (fun c => c != ':') with
  | [] => none
  | _ :: post =>
    if pre.length ≥ 2 ∧ (pre.dropWhile Char.isWhitespace).length ≤ 80 then
      let key := pylower ⟨stripList pre⟩
      let val : String := ⟨stripList post⟩
      if key ≠ "" ∧ val ≠ "" then some (key, val) else none
    else none

/-- Model of `_parse_kv_stream`: order- and duplicate-preserving `key: value` scan over
the body lines (Python `splitlines` modelled as splitting at newline). -/
def parse_kv_stream (text : String) : List (String × String) :=
  ((splitOnChar '\n' text.data).map (fun l => (⟨l⟩ : String))).filterMap parse_kv_line

/-- Model of `_parse_key_values`: first occurrence of each key from the stream. -/
def parse_key_values (text : String) : List (String × String) :=
  (parse_kv_stream text).foldl
    (fun acc kv => if acc.any (fun p => p.1 == kv.1) then acc else acc ++ [kv]) []

/-- Model of `_pick`: probe keys in order against the first-occurrence dict. -/
def pick (kv : List (String × String)) : List String → Option String
  | [] => none
  | k :: ks =>
    let kk := pylower (pystrip k)
    match kv.find? (fun p => p.1 == kk) with
    | some p => if p.2 ≠ "" then some p.2 else pick kv ks
    | none => pick kv ks

/-- Model of `_pick_first`: first stream entry whose key is in the key set. -/
def pick_first (stream : List (String × String)) (keys : List String) : Option String :=
  let keyset := keys.map (fun k => pylower (pystrip k))
  (stream.find? (fun p => keyset.contains p.1 && p.2 != "")).map (fun p => p.2)

/-- Model of `_all`: every stream value whose key is in the key set. -/
def all_vals (stream : List (String × String)) (keys : List String) : List String :=
  let keyset := keys.map (fun k => pylower (pystrip k))
  (stream.filter (fun p => keyset.contains p.1 && p.2 != "")).map (fun p => p.2)

/-- Match `\.(ext₁|ext₂|…)\b` at the current position (the haystack is already
lower-cased by the callers, so matching is exact). -/
def extBoundaryAt (exts : List String) : List Char → Bool
  | '.' :: rest =>
    exts.any fun e =>
      match matchLitCS e.data rest with
      | some [] => true
      | some (c :: _) => !isWordChar c
      | none => false
  | _ => false

/-- Model of `re.search(r"\.(…)\b", low)` as a Bool. -/
def extSearch (exts : List String) (l : List Char) : Bool :=
  l.tails.any (extBoundaryAt exts)

/-- Extension alternatives of the process heuristic. -/
def PROC_EXTS : List String := ["exe", "dll", "sys", "bat", "ps1"]

/-- Extension alternatives of the detection heuristic. -/
def DET_EXTS : List String := ["exe", "dll", "sys"]

/-- Known malware-signature prefixes. -/
def SIG_PREFIXES : List String :=
  ["heur:", "trojan.", "trojan:", "not-a-virus:", "virus.", "worm.", "exploit."]

/-- Model of `_select_process_and_detection`: disambiguate the duplicate "Название"
values into `(process_name, detection_name)`. -/
def select_process_and_detection (names : List String) : Option String × Option String :=
  let process :=
    (names.find? fun n => extSearch PROC_EXTS (pylower (pystrip n)).data).map pystrip
  let detection :=
    (names.find? fun n =>
      let nn := pystrip n
      let low := pylower nn
      SIG_PREFIXES.any (fun p => p.data.isPrefixOf low.data) ||
        (nn.data.contains ':' && !extSearch DET_EXTS low.data)).map pystrip
  let detection :=
    if detection = none ∧ process = none ∧ names ≠ [] then
      names.getLast?.map pystrip
    else detection
  let detection :=
    if detection = none ∧ names ≠ [] then
      (names.reverse.find? fun n => !extSearch DET_EXTS (pylower n).data).map pystrip
    else detection
  (process, detection)

/-- Two regex digits `\d{2}`. -/
def digit2 (l : List Char) : Option (List Char × List Char) :=
  match l with
  | a :: b :: rest => if a.isDigit && b.isDigit then some ([a, b], rest) else none
  | _ => none

/-- Match `\(\s*GMT([+-]\d{2}:\d{2})\s*\)` at the current position, returning
the replacement (the captured group) and the rest of the input. -/
def gmtParenAt (l : List Char) : Option (List Char × List Char) :=
  match l with
  | '(' :: r0 =>
    let r1 := r0.dropWhile Char.isWhitespace
    match matchLitCI "gmt".data r1 with
    | none => none
    | some r2 =>
      match r2 with
      | s :: r3 =>
        if s == '+' || s == '-' then
          match digit2 r3 with
          | none => none
          | some (d1, r4) =>
            match r4 with
            | ':' :: r5 =>
              match digit2 r5 with
              | none => none
              | some (d2, r6) =>
                match r6.dropWhile Char.isWhitespace with
                | ')' :: r8 => some (s :: (d1 ++ ':' :: d2), r8)
                | _ => none
            | _ => none
        else none
      | [] => none
  | _ => none

/-- Global substitution driver; the fuel (initialised to the input length)
dominates the number of scan steps, each of which consumes at least one
character, so behaviour equals the unbounded `re.sub`. -/
def gmtSubFuel : Nat → List Char → List Char
  | 0, l => l
  | _ + 1, [] => []
  | f + 1, c :: t =>
    match gmtParenAt (c :: t) with
    | some (rep, rest) => rep ++ gmtSubFuel f rest
    | none => c :: gmtSubFuel f t

/-- Model of `re.sub(r"\(\s*GMT([+-]\d{2}:\d{2})\s*\)", r"\1", s)` of the event-time
validator. -/
def gmt_paren_sub (s : String) : String := ⟨gmtSubFuel s.data.length s.data⟩

/-- Accumulate decimal digits. -/
def digitsToNat (l : List Char) : Nat := l.foldl (fun n c => n * 10 + (c.toNat - 48)) 0

/-- Stand-in for the external `dateutil.parser.parse` free-text date parser,
which raises `ParserError` on input with no recognisable date token. Only its
partiality matters to the claims; here digit strings parse (as epoch seconds)
and anything else fails, mirroring that dateutil rejects letter-only text such
as "garbage". -/
def dtparse (s : String) : Option Int :=
  if s.data ≠ [] ∧ s.data.all Char.isDigit then some (Int.ofNat (digitsToNat s.data))
  else none

/-- Model of `KasperskyEvent._parse_event_time_to_utc` (pydantic `before` validator):
`None`/empty pass through as `None`, datetimes (`Sum.inr`) are normalised to
UTC (identity under the epoch-seconds model), and strings are stripped,
GMT-paren-substituted and handed to the date parser — whose failure propagates
as a raised `ValidationError`, modelled as `Except.error`. -/
def parse_event_time_field : Option (String ⊕ Int) → Except Unit (Option Int)
  | none => .ok none
  | some (.inr t) => .ok (some t)
  | some (.inl v) =>
    if v = "" then .ok none
    else
      match dtparse (gmt_paren_sub (pystrip v)) with
      | some t => .ok (some t)
      | none => .error ()

/-- Model of `KasperskyEvent._normalize_sha256` validator. -/
def isLowerHex (c : Char) : Bool := c.isDigit || (97 ≤ c.toNat && c.toNat ≤ 102)

/-- Normalise a sha256 candidate: lower-case 64-hex strings, else just strip. -/
def normalize_sha256 : Option String → Option String
  | none => none
  | some v =>
    if v = "" then some v
    else
      let vv := pylower (pystrip v)
      if vv.data.length = 64 ∧ vv.data.all isLowerHex then some vv
      else some (pystrip v)

/-- A raw message after MIME decoding: header strings as retrieved by
`msg.get(…)` (empty when absent) and the decoded plain-text body.
`header_date` is the output of `_guess_date`, which never raises. -/
structure RawEmailMsg where
  subject : String
  from_email : String
  message_id : String
  header_date : Option Int
  body : String
deriving DecidableEq, Repr

/-- Model of `ParsedEmail`. -/
structure ParsedEmail where
  uid : String
  message_id : Option String
  subject : Option String
  from_email : Option String
  date : Option Int
  raw_text : String
  event : KasperskyEvent
deriving DecidableEq, Repr

/-- Model of `str(msg.get(h, "")).strip() or None`. -/
def strOrNone (s : String) : Option String :=
  let t := pystrip s
  if t = "" then none else some t

/-- The body text handed to extraction (`body.strip()` in the text/plain case). -/
def raw_text_of (m : RawEmailMsg) : String := pystrip m.body

/-- The value handed to the `event_time` validator:
`_pick_first(stream, …time keys…) or date` (a string from the stream wins,
else the parsed header date). -/
def event_time_candidate (m : RawEmailMsg) : Option (String ⊕ Int) :=
  match pick_first (parse_kv_stream (raw_text_of m))
      ["дата и время события", "event time", "time", "date", "дата/время", "время события"] with
  | some s => some (Sum.inl s)
  | none => m.header_date.map Sum.inr

/-- Model of `KasperskyEmailParser.parse`: the full extraction pipeline. The only
failure point is the event-time validator (values extracted from the stream
are stripped and nonempty by construction, so the surrounding truthiness
checks coincide with `Option` matches). -/
def parse (uid : String) (m : RawEmailMsg) : Except Unit ParsedEmail :=
  let subject := strOrNone m.subject
  let from_email := strOrNone m.from_email
  let message_id := strOrNone m.message_id
  let date := m.header_date
  let raw_text := raw_text_of m
  let stream := parse_kv_stream raw_text
  let kv := parse_key_values raw_text
  let vendor_severity :=
    match vendor_sev_search (subject.getD "") with
    | some v => some v
    | none => vendor_sev_search raw_text
  let device :=
    match pick kv ["device", "computer", "host", "hostname", "устройство"] with
    | some d => some d
    | none => device_search raw_text
  let names := all_vals stream ["название", "name"]
  let pd := select_process_and_detection names
  match parse_event_time_field (event_time_candidate m) with
  | .error e => .error e
  | .ok event_time =>
    let event : KasperskyEvent :=
      { vendor_severity :=
          match vendor_severity with
          | some v => some v
          | none => pick kv ["severity", "vendor severity", "уровень опасности"],
        device := device,
        event_type :=
          match pick_first stream ["тип события", "event type", "event", "тип"] with
          | some v => some v
          | none => pick kv ["event type", "тип события"],
        detection_name :=
          match pd.2 with
          | some v => some v
          | none => pick kv ["detection name", "threat name", "malware name", "название угрозы"],
        object_path := pick_first stream ["объект", "object", "object path", "file", "path"],
        process_name :=
          match pd.1 with
          | some v => some v
          | none => pick kv ["process", "process name", "процесс"],
        sha256 := normalize_sha256 (pick kv ["sha256", "sha-256", "hash", "хеш"]),
        user := pick_first stream ["пользователь", "user", "account"],
        result := pick_first stream ["описание результата", "result", "action", "status", "результат"],
        event_time := event_time }
    let event :=
      if event.event_type = none then
        { event with event_type := event_quoted_search raw_text }
      else event
    let event :=
      if event.sha256 = none then
        { event with sha256 := (sha256_fallback raw_text).map pylower }
      else event
    .ok ⟨uid, message_id, subject, from_email, date, raw_text, event⟩

/-- Success test for `Except`. -/
def exceptOk {ε α : Type} : Except ε α → Bool
  | .ok _ => true
  | .error _ => false

/-- Counterexample to C4 as stated: a message whose body carries an
unparseable `Time:` value makes `parse` raise (the pydantic event-time
validator propagates the date-parser failure), instead of returning an event
with a null field. -/
theorem parse_raises_on_unparseable_time :
    parse "u1" (RawEmailMsg.mk "" "" "" none "Time: garbage") = .error () := by rfl

/-- C4 (amended): `parse` returns a best-effort result — fields it cannot
extract are `none` — and never raises, except exactly when the extracted
event-time value fails free-text date parsing, in which case the validation
error propagates out of `parse`. -/
theorem parse_total_iff_event_time_parses (uid : String) (m : RawEmailMsg) :
    exceptOk (parse uid m) = exceptOk (parse_event_time_field (event_time_candidate m)) := by
  unfold parse
  cases h : parse_event_time_field (event_time_candidate m) <;> simp [h, exceptOk]

/-! ## Persistent store (src/soc_core/database.py)

Tables are in-memory lists; `autoincrement` primary keys are explicit
counters, so rows are appended in id order and `ORDER BY id DESC LIMIT 1`
is `getLast?` of the filtered list. -/

/-- Model of `AssetORM` row (`type` is the stored string). -/
structure AssetRow where
  id : Int
  hostname : String
  type : String
deriving DecidableEq, Repr

/-- Model of `AssetRecipientORM` row (`enabled` stored as 0/1 as in the schema). -/
structure AssetRecipientRow where
  id : Int
  asset_id : Int
  chat_id : Int
  user_id : Int
  enabled : Nat
  min_risk : String
  created_at_utc : Int
deriving DecidableEq, Repr

/-- Model of `EmailORM` row. -/
structure EmailRow where
  id : Int
  uid : String
  message_id : Option String
  subject : Option String
  from_email : Option String
  date_utc : Option Int
  raw_text : String
  telegram_sent : Bool
  telegram_sent_at_utc : Option Int
deriving DecidableEq, Repr

/-- Model of `EventORM` row. -/
structure EventRow where
  id : Int
  email_id : Int
  vendor_severity : Option String
  device : Option String
  event_type : Option String
  detection_name : Option String
  object_path : Option String
  process_name : Option String
  sha256 : Option String
  user : Option String
  result : Option String
  event_time_utc : Option Int
  fingerprint : String
  created_at_utc : Int
deriving DecidableEq, Repr

/-- Model of `TelegramMessageORM` row. -/
structure TgMsgRow where
  id : Int
  email_id : Int
  device : Option String
  chat_id : Int
  telegram_message_id : Int
  sent_at_utc : Int
  risk_level : String
  ai_enabled : Bool
  model_used : Option String
  llm_fallback : Option String
  text_sent : String
deriving DecidableEq, Repr

/-- The whole store. -/
structure DBState where
  assets : List AssetRow := []
  recipients : List AssetRecipientRow := []
  emails : List EmailRow := []
  events : List EventRow := []
  dedup : List (String × DedupRecord) := []
  tgMessages : List TgMsgRow := []
  nextAssetId : Int := 1
  nextRecipientId : Int := 1
  nextEmailId : Int := 1
  nextEventId : Int := 1
  nextTgId : Int := 1
deriving DecidableEq, Repr

/-- Model of `AssetType(s)` enum construction: `none` models the raised `ValueError`. -/
def assetTypeOfString : String → Option AssetType
  | "UNCLASSIFIED" => some .UNCLASSIFIED
  | "SERVER" => some .SERVER
  | "WORKSTATION" => some .WORKSTATION
  | _ => none

/-- Model of `Database.upsert_email`: returns `(state, email_id, created)`; an existing
UID returns its row id untouched (in particular `raw_text` is never
overwritten). -/
def upsert_email (st : DBState) (uid raw_text : String)
    (message_id subject from_email : Option String) (date_utc : Option Int) :
    DBState × Int × Bool :=
  match st.emails.find? (fun e => e.uid == uid) with
  | some e => (st, e.id, false)
  | none =>
    let obj : EmailRow :=
      ⟨st.nextEmailId, uid, message_id, subject, from_email, date_utc, raw_text, false, none⟩
    ({ st with emails := st.emails ++ [obj], nextEmailId := st.nextEmailId + 1 },
     obj.id, true)

/-- Model of `Database.ensure_asset`: auto-create UNCLASSIFIED on first sighting; an
existing row with an invalid stored type is reset to UNCLASSIFIED. -/
def ensure_asset (st : DBState) (hostname : Option String) : DBState :=
  match hostname with
  | none => st
  | some h0 =>
    if h0 = "" then st
    else
      let hn := pystrip h0
      if hn = "" then st
      else
        match st.assets.find? (fun a => a.hostname == hn) with
        | some a =>
          if assetTypeOfString a.type = none then
            { st with assets := (st.assets.map
                (fun x => if x.id == a.id then { x with type := "UNCLASSIFIED" } else x)) }
          else st
        | none =>
          { st with assets := st.assets ++ [⟨st.nextAssetId, hn, "UNCLASSIFIED"⟩],
                    nextAssetId := st.nextAssetId + 1 }

/-- Model of `Database.get_asset_type` (`ValueError` on an unknown stored value gives
`none`). -/
def get_asset_type (st : DBState) (hostname : Option String) : Option AssetType :=
  match hostname with
  | none => none
  | some h0 =>
    if h0 = "" then none
    else
      let hn := pystrip h0
      if hn = "" then none
      else
        match st.assets.find? (fun a => a.hostname == hn) with
        | none => none
        | some a => assetTypeOfString a.type

/-- Model of `Database.insert_event`: computes the fingerprint (abstract hash `h`) and
appends the row. -/
def insert_event (h : String → String) (st : DBState) (email_id : Int)
    (ev : KasperskyEvent) (now : Int) : DBState × Int :=
  let fp := fingerprint h ev
  let obj : EventRow :=
    ⟨st.nextEventId, email_id, ev.vendor_severity, ev.device, ev.event_type,
     ev.detection_name, ev.object_path, ev.process_name, ev.sha256, ev.user,
     ev.result, ev.event_time, fp, now⟩
  ({ st with events := st.events ++ [obj], nextEventId := st.nextEventId + 1 }, obj.id)

/-- Model of `Database.should_send_alert` at the store level: look up the fingerprint
row, run the pure decision, write the row back (insert or update). -/
def should_send_alert_db (st : DBState) (fp : String) (now window : Int)
    (thr : Nat) (email_id : Int) : DBState × Bool × Nat :=
  let row := (st.dedup.find? (fun p => p.1 == fp)).map (fun p => p.2)
  let res := should_send_alert row now window thr email_id
  let dedup' :=
    match row with
    | none => st.dedup ++ [(fp, res.1)]
    | some _ => st.dedup.map (fun p => if p.1 == fp then (fp, res.1) else p)
  ({ st with dedup := dedup' }, res.2)

/-- Model of `(min_risk or "MEDIUM")` for stored values. -/
def minRiskOrDefault (s : String) : String := if s = "" then "MEDIUM" else s

/-- Model of `Database.list_recipients_for_device`: `(chat_id, user_id, min_risk,
enabled)` tuples for the asset whose hostname is the (stripped) device. -/
def list_recipients_for_device (st : DBState) (device : Option String) :
    List (Int × Int × String × Bool) :=
  match device with
  | none => []
  | some d0 =>
    if d0 = "" then []
    else
      let d := pystrip d0
      if d = "" then []
      else
        match st.assets.find? (fun a => a.hostname == d) with
        | none => []
        | some asset =>
          (st.recipients.filter (fun r => r.asset_id == asset.id)).map
            (fun r => (r.chat_id, r.user_id, minRiskOrDefault r.min_risk, r.enabled != 0))

/-- Model of `Database.get_latest_telegram_message_for_email`: `(text_sent, risk_level)`
of the row with the greatest id for this email (rows are appended in id
order). -/
def get_latest_telegram_message_for_email (st : DBState) (email_id : Int) :
    Option (String × String) :=
  ((st.tgMessages.filter (fun t => t.email_id == email_id)).getLast?).map
    (fun t => (t.text_sent, t.risk_level))

/-- Model of `Database.has_telegram_message`. -/
def has_telegram_message (st : DBState) (email_id chat_id : Int) : Bool :=
  st.tgMessages.any (fun t => t.email_id == email_id && t.chat_id == chat_id)

/-- Model of `device.strip() if device else None` (empty string is falsy). -/
def deviceStripOpt (device : Option String) : Option String :=
  match device with
  | none => none
  | some d => if d = "" then none else some (pystrip d)

/-- Model of `Database.add_telegram_message`. -/
def add_telegram_message (st : DBState) (email_id : Int) (device : Option String)
    (chat_id telegram_message_id : Int) (sent_at_utc : Int) (risk_level : String)
    (ai_enabled : Bool) (model_used llm_fallback : Option String)
    (text_sent : String) : DBState :=
  { st with
    tgMessages := st.tgMessages ++
      [⟨st.nextTgId, email_id, deviceStripOpt device, chat_id, telegram_message_id,
        sent_at_utc, risk_level, ai_enabled, model_used, llm_fallback, text_sent⟩],
    nextTgId := st.nextTgId + 1 }

/-- Model of `Database.mark_email_telegram_sent`. -/
def mark_email_telegram_sent (st : DBState) (email_id : Int) (when_utc : Int) :
    DBState :=
  { st with emails := (st.emails.map
      (fun e => if e.id == email_id then
        { e with telegram_sent := true, telegram_sent_at_utc := some when_utc }
       else e)) }

/-- Model of `(min_risk or "MEDIUM").strip().upper()` normalisation of
`Database.upsert_asset_recipient`: anything outside
{INFO, MEDIUM, HIGH, CRITICAL} — including the valid risk level LOW —
silently becomes MEDIUM. -/
def normalize_min_risk (min_risk : String) : String :=
  let mr := pyupper (pystrip (if min_risk = "" then "MEDIUM" else min_risk))
  if mr = "INFO" ∨ mr = "MEDIUM" ∨ mr = "HIGH" ∨ mr = "CRITICAL" then mr else "MEDIUM"

/-- Model of `Database.upsert_asset_recipient`: update the (asset, chat) row in place or
append a new one; the stored `min_risk` is always the normalised value. -/
def upsert_asset_recipient (st : DBState) (asset_id chat_id user_id : Int)
    (min_risk : String) (enabled : Bool) (now : Int) : DBState :=
  let mr := normalize_min_risk min_risk
  match st.recipients.find? (fun r => r.asset_id == asset_id && r.chat_id == chat_id) with
  | some ex =>
    { st with recipients := (st.recipients.map
        (fun r => if r.id == ex.id then
          { r with user_id := user_id, min_risk := mr,
                   enabled := if enabled then 1 else 0 }
         else r)) }
  | none =>
    { st with
      recipients := st.recipients ++
        [⟨st.nextRecipientId, asset_id, chat_id, user_id,
          (if enabled then 1 else 0), mr, now⟩],
      nextRecipientId := st.nextRecipientId + 1 }

/-! ## Rendering (src/soc_core/tasks.py `format_rules_summary`,
src/soc_core/bot.py `send_dispatch`) -/

/-- Optional-string truthiness (`if x:` on a `str | None`). -/
def optTruthy : Option String → Bool
  | none => false
  | some s => s != ""

/-- The icon table of `format_rules_summary`. -/
def summary_icon : RiskLevel → String
  | .CRITICAL => "🔴"
  | .HIGH => "🔴"
  | .MEDIUM => "🟡"
  | .LOW => "🟢"
  | .INFO => "🟢"

/-- Placeholder for `datetime.isoformat()` of a UTC timestamp (the textual
layout of the timestamp is irrelevant to every claim). -/
def isoformatUTC (t : Int) : String := toString t

/-- Model of `format_rules_summary`: the deterministic rule-based rendering. -/
def format_rules_summary (enriched : EnrichedEvent) (repeats : Nat) : String :=
  let ev := enriched.event
  let icon := summary_icon enriched.risk_level
  let l1 := icon ++ " | " ++ riskValue enriched.risk_level ++ " | " ++
    pystrip (pyOr ev.event_type "Event") ++ " | " ++ pystrip (pyOr ev.device "unknown")
  let lines := [l1]
  let lines := lines ++
    (match enriched.asset_type with
     | some a => ["Asset: " ++ assetValue a]
     | none => [])
  let lines := lines ++
    (if optTruthy enriched.risk_reason then ["Reason: " ++ enriched.risk_reason.getD ""] else [])
  let lines := lines ++
    (if optTruthy ev.detection_name then ["Detection: " ++ ev.detection_name.getD ""] else [])
  let lines := lines ++
    (if optTruthy ev.object_path then ["Object: `" ++ ev.object_path.getD "" ++ "`"] else [])
  let lines := lines ++
    (if optTruthy ev.sha256 then ["SHA256: `" ++ ev.sha256.getD "" ++ "`"] else [])
  let lines := lines ++
    (if optTruthy ev.user then ["User: " ++ ev.user.getD ""] else [])
  let lines := lines ++
    (match ev.event_time with
     | some t => ["Time(UTC): " ++ isoformatUTC t]
     | none => [])
  let lines := lines ++
    (if repeats > 1 then ["Repeats (dedup counter): " ++ toString repeats] else [])
  intercalateStr "\n" lines

/-- Model of `html.escape` (default `quote=True`). -/
def htmlEscapeChar (c : Char) : String :=
  if c == '&' then "&amp;"
  else if c == '<' then "&lt;"
  else if c == '>' then "&gt;"
  else if c == '"' then "&quot;"
  else if c.toNat = 39 then "&#x27;"
  else ⟨[c]⟩

/-- Model of `html.escape` over a string. -/
def htmlEscape (s : String) : String :=
  (s.data.map htmlEscapeChar).foldl (fun a b => a ++ b) ""

/-- The `_icon` table of bot.py. -/
def bot_icon (level : RiskLevel) : String :=
  if level = .CRITICAL ∨ level = .HIGH then "🔴"
  else if level = .MEDIUM then "🟡"
  else "🟢"

/-- The text actually sent by `send_dispatch`: icon header plus the
HTML-escaped body in a `pre` block (this string is also what gets stored in
`text_sent`). -/
def send_dispatch_text (risk : RiskLevel) (text : String) : String :=
  bot_icon risk ++ "\n<pre>" ++ htmlEscape text ++ "</pre>"

/-! ## Dispatch pipeline (src/soc_core/app.py `_poll_once`, per message)

External effects become parameters: `sendOk chat` is whether the Telegram
send to that chat succeeds (an exception otherwise, caught per address), and
`llmText` is the text produced by the optional LLM branch of
`build_dispatch_message` when it runs (`none` = LLM disabled, in which case
the source uses `format_rules_summary`; a failed LLM call already yields its
fallback text inside that branch). Telegram message ids are irrelevant to all
claims and recorded as 0. -/

/-- Model of `DispatchMessage`. -/
structure DispatchMessage where
  text : String
  email_id : Int
  risk_level : RiskLevel
deriving DecidableEq, Repr

/-- Model of `build_dispatch_message`: classification via asset lookup plus rendering;
the risk level attached to the dispatch is always the rule engine's level,
whichever way the text was produced. -/
def build_dispatch_message (st : DBState) (email_id : Int) (event : KasperskyEvent)
    (repeats : Nat) (llmText : Option String) : DispatchMessage :=
  let asset_type := get_asset_type st event.device
  let enriched := enrich_with_rules event asset_type
  let text :=
    match llmText with
    | some t => t
    | none => format_rules_summary enriched repeats
  ⟨text, email_id, enriched.risk_level⟩

/-- Model of `_RISK_RANK`. -/
def RISK_RANK : List (String × Nat) :=
  [("INFO", 0), ("LOW", 1), ("MEDIUM", 2), ("HIGH", 3), ("CRITICAL", 4)]

/-- Model of `_RISK_RANK.get(k, default)`. -/
def riskRankGet (k : String) (default : Nat) : Nat :=
  match RISK_RANK.find? (fun p => p.1 == k) with
  | some p => p.2
  | none => default

/-- Model of `_dedup_ints`: order-preserving de-duplication of the admin chat list. -/
def dedup_ints (xs : List Int) : List Int :=
  xs.foldl (fun acc x => if acc.contains x then acc else acc ++ [x]) []

/-- The settings fields `_poll_once` reads. -/
structure PollSettings where
  imap_mark_seen : Bool
  telegram_chat_id : Option Int
  telegram_admin_chat_ids : List Int
  anti_spam_window_seconds : Int
  anti_spam_repeat_threshold : Nat
  enable_llm : Bool
  openai_model : String
deriving DecidableEq, Repr

/-- The admin chat list (`telegram_chat_id` is appended only when truthy,
i.e. set and nonzero, then the extra admin ids, de-duplicated). -/
def admin_chats_of (cfg : PollSettings) : List Int :=
  let base :=
    match cfg.telegram_chat_id with
    | some c => if c = 0 then [] else [c]
    | none => []
  dedup_ints (base ++ cfg.telegram_admin_chat_ids)

/-- Model of `(min_risk or "MEDIUM").strip().upper()` as applied in both recipient
loops of `_poll_once`. -/
def mrNorm (min_risk : String) : String :=
  pyupper (pystrip (if min_risk = "" then "MEDIUM" else min_risk))

/-- A successful Telegram send as observed by the claims: target chat, the
risk level string recorded with it, and the exact text sent. -/
structure SendRec where
  chat_id : Int
  risk_level : String
  text : String
deriving DecidableEq, Repr

/-- What happened to one message in `_poll_once`. -/
inductive MsgOutcome
  | replayed
  | suppressed
  | noAdminsConfigured
  | sendFailedAll
  | processed
deriving DecidableEq, Repr

/-- Result of processing one fetched message: the new store, the uids this
message contributed to the end-of-cycle acknowledgment batch, the successful
admin and per-device owner sends, the per-device recipient rows the dispatch
consulted, and the control-flow outcome. -/
structure StepResult where
  st : DBState
  ack : List String
  adminSends : List SendRec
  ownerSends : List SendRec
  recipients_used : List (Int × Int × String × Bool)
  outcome : MsgOutcome
deriving DecidableEq, Repr

/-- The owner loop of the replay branch (`created = False`): skip disabled
rows, admin chats, rows whose threshold outranks the stored message, and
chats that already hold a receipt; each surviving send stores the stored text
verbatim. A failed send is caught and skipped. -/
def replayOwnerLoop (cfg : PollSettings) (sendOk : Int → Bool) (now : Int)
    (email_id : Int) (device : Option String) (admin_chats : List Int)
    (msg_rank : Nat) (stored_text stored_risk : String) (st : DBState) :
    List (Int × Int × String × Bool) → DBState × List SendRec
  | [] => (st, [])
  | (r_chat_id, _r_user_id, min_risk, enabled) :: rest =>
    if !enabled then
      replayOwnerLoop cfg sendOk now email_id device admin_chats msg_rank
        stored_text stored_risk st rest
    else if admin_chats.contains r_chat_id then
      replayOwnerLoop cfg sendOk now email_id device admin_chats msg_rank
        stored_text stored_risk st rest
    else if msg_rank < riskRankGet (mrNorm min_risk) 2 then
      replayOwnerLoop cfg sendOk now email_id device admin_chats msg_rank
        stored_text stored_risk st rest
    else if has_telegram_message st email_id r_chat_id then
      replayOwnerLoop cfg sendOk now email_id device admin_chats msg_rank
        stored_text stored_risk st rest
    else if sendOk r_chat_id then
      let st' := add_telegram_message st email_id device r_chat_id 0 now stored_risk
        cfg.enable_llm (if cfg.enable_llm then some cfg.openai_model else none)
        none stored_text
      let res := replayOwnerLoop cfg sendOk now email_id device admin_chats msg_rank
        stored_text stored_risk st' rest
      (res.1, ⟨r_chat_id, stored_risk, stored_text⟩ :: res.2)
    else
      replayOwnerLoop cfg sendOk now email_id device admin_chats msg_rank
        stored_text stored_risk st rest

/-- The replay branch of `_poll_once` for an already-ingested UID: the uid is
appended to the acknowledgment batch up front; with no admin chats, or no
stored Telegram message for the email, the message is skipped; otherwise the
stored text is replayed to eligible owners. Extraction, dedup and
classification never run here. -/
def processReplay (cfg : PollSettings) (sendOk : Int → Bool) (now : Int)
    (st : DBState) (parsed : ParsedEmail) (email_id : Int) : StepResult :=
  let ack := if cfg.imap_mark_seen then [parsed.uid] else []
  let admin_chats := admin_chats_of cfg
  if admin_chats = [] then ⟨st, ack, [], [], [], .replayed⟩
  else
    match get_latest_telegram_message_for_email st email_id with
    | none => ⟨st, ack, [], [], [], .replayed⟩
    | some (stored_text, stored_risk) =>
      let msg_rank := riskRankGet (pyupper stored_risk) 0
      let recipients := list_recipients_for_device st parsed.event.device
      let res := replayOwnerLoop cfg sendOk now email_id parsed.event.device
        admin_chats msg_rank stored_text stored_risk st recipients
      ⟨res.1, ack, [], res.2, recipients, .replayed⟩

/-- Model of `dispatch.text.split("LLM fallback:", 1)[1]`: text after the first
occurrence of the marker. -/
def afterMarker (marker : String) : List Char → Option (List Char)
  | [] => none
  | c :: t =>
    if marker.data.isPrefixOf (c :: t) then some ((c :: t).drop marker.data.length)
    else afterMarker marker t

/-- The `llm_fallback` token extraction of `_poll_once` (first line of the
stripped text after the marker, truncated to 128 characters). -/
def llm_fallback_of (text : String) : Option String :=
  if pyIn "LLM fallback:" text then
    match afterMarker "LLM fallback:" text.data with
    | some rest =>
      some ⟨(((splitOnChar '\n' (stripList rest)).headD []).take 128)⟩
    | none => none
  else none

/-- The admin fan-out loop: every admin is attempted; a successful send stores
a receipt with the dispatch risk level and the exact sent text. -/
def adminLoop (cfg : PollSettings) (sendOk : Int → Bool) (now : Int)
    (email_id : Int) (device : Option String) (dispatch : DispatchMessage)
    (llm_fallback : Option String) (st : DBState) :
    List Int → DBState × List SendRec
  | [] => (st, [])
  | ac :: rest =>
    if sendOk ac then
      let sent_text := send_dispatch_text dispatch.risk_level dispatch.text
      let st' := add_telegram_message st email_id device ac 0 now
        (riskValue dispatch.risk_level) cfg.enable_llm
        (if cfg.enable_llm then some cfg.openai_model else none)
        llm_fallback sent_text
      let res := adminLoop cfg sendOk now email_id device dispatch llm_fallback st' rest
      (res.1, ⟨ac, riskValue dispatch.risk_level, sent_text⟩ :: res.2)
    else
      adminLoop cfg sendOk now email_id device dispatch llm_fallback st rest

/-- The per-device owner loop of the fresh-dispatch branch: skip disabled
rows, admin chats, and rows whose threshold outranks the message. -/
def newOwnerLoop (cfg : PollSettings) (sendOk : Int → Bool) (now : Int)
    (email_id : Int) (device : Option String) (admin_chats : List Int)
    (msg_rank : Nat) (dispatch : DispatchMessage) (llm_fallback : Option String)
    (st : DBState) : List (Int × Int × String × Bool) → DBState × List SendRec
  | [] => (st, [])
  | (r_chat_id, _r_user_id, min_risk, enabled) :: rest =>
    if !enabled then
      newOwnerLoop cfg sendOk now email_id device admin_chats msg_rank dispatch
        llm_fallback st rest
    else if admin_chats.contains r_chat_id then
      newOwnerLoop cfg sendOk now email_id device admin_chats msg_rank dispatch
        llm_fallback st rest
    else if msg_rank < riskRankGet (mrNorm min_risk) 2 then
      newOwnerLoop cfg sendOk now email_id device admin_chats msg_rank dispatch
        llm_fallback st rest
    else if sendOk r_chat_id then
      let sent_text := send_dispatch_text dispatch.risk_level dispatch.text
      let st' := add_telegram_message st email_id device r_chat_id 0 now
        (riskValue dispatch.risk_level) cfg.enable_llm
        (if cfg.enable_llm then some cfg.openai_model else none)
        llm_fallback sent_text
      let res := newOwnerLoop cfg sendOk now email_id device admin_chats msg_rank
        dispatch llm_fallback st' rest
      (res.1, ⟨r_chat_id, riskValue dispatch.risk_level, sent_text⟩ :: res.2)
    else
      newOwnerLoop cfg sendOk now email_id device admin_chats msg_rank dispatch
        llm_fallback st rest

/-- The fresh-message branch of `_poll_once` (`created = True`): auto-register
the asset, insert the event row, run the dedup decision; a suppressed message
is acknowledged without dispatch; otherwise classify+render, fan out to
admins first — if no admin send succeeds the whole message is retried later
(no acknowledgment) — then to eligible per-device owners. -/
def processNew (cfg : PollSettings) (h : String → String) (sendOk : Int → Bool)
    (llmText : Option String) (now : Int) (st : DBState) (parsed : ParsedEmail)
    (email_id : Int) : StepResult :=
  let ackIf := if cfg.imap_mark_seen then [parsed.uid] else []
  let st := ensure_asset st parsed.event.device
  let st := (insert_event h st email_id parsed.event now).1
  let fp := fingerprint h parsed.event
  let res := should_send_alert_db st fp now cfg.anti_spam_window_seconds
    cfg.anti_spam_repeat_threshold email_id
  let st := res.1
  let send := res.2.1
  let repeats := res.2.2
  if send = false then ⟨st, ackIf, [], [], [], .suppressed⟩
  else
    let dispatch := build_dispatch_message st email_id parsed.event repeats
      (if cfg.enable_llm then llmText else none)
    let admin_chats := admin_chats_of cfg
    if admin_chats = [] then ⟨st, ackIf, [], [], [], .noAdminsConfigured⟩
    else
      let llm_fallback := llm_fallback_of dispatch.text
      let ares := adminLoop cfg sendOk now email_id parsed.event.device dispatch
        llm_fallback st admin_chats
      if ares.2 = [] then ⟨ares.1, [], [], [], [], .sendFailedAll⟩
      else
        let st2 := mark_email_telegram_sent ares.1 email_id now
        let recipients := list_recipients_for_device st2 parsed.event.device
        let msg_rank := riskRankGet (pyupper (riskValue dispatch.risk_level)) 0
        let ores := newOwnerLoop cfg sendOk now email_id parsed.event.device
          admin_chats msg_rank dispatch llm_fallback st2 recipients
        ⟨ores.1, ackIf, ares.2, ores.2, recipients, .processed⟩

/-- Processing of one fetched message in `_poll_once`: idempotent insert by
UID, then either the fresh-dispatch branch or the replay branch. -/
def processMessage (cfg : PollSettings) (h : String → String) (sendOk : Int → Bool)
    (llmText : Option String) (now : Int) (st : DBState) (parsed : ParsedEmail) :
    StepResult :=
  let r := upsert_email st parsed.uid parsed.raw_text parsed.message_id
    parsed.subject parsed.from_email parsed.date
  if r.2.2 then processNew cfg h sendOk llmText now r.1 parsed r.2.1
  else processReplay cfg sendOk now r.1 parsed r.2.1

/-! ## Claims about the store and the dispatch pipeline -/

theorem add_telegram_message_analysis_unchanged (st : DBState) (a : Int)
    (b : Option String) (c d e : Int) (f : String) (g : Bool)
    (m n : Option String) (t : String) :
    (add_telegram_message st a b c d e f g m n t).emails = st.emails ∧
    (add_telegram_message st a b c d e f g m n t).events = st.events ∧
    (add_telegram_message st a b c d e f g m n t).dedup = st.dedup ∧
    (add_telegram_message st a b c d e f g m n t).assets = st.assets := by
  unfold add_telegram_message
  exact ⟨rfl, rfl, rfl, rfl⟩

theorem replayOwnerLoop_analysis_unchanged (cfg : PollSettings) (sendOk : Int → Bool)
    (now : Int) (email_id : Int) (device : Option String) (admin_chats : List Int)
    (msg_rank : Nat) (stored_text stored_risk : String) :
    ∀ (recips : List (Int × Int × String × Bool)) (st : DBState),
      (replayOwnerLoop cfg sendOk now email_id device admin_chats msg_rank
        stored_text stored_risk st recips).1.emails = st.emails ∧
      (replayOwnerLoop cfg sendOk now email_id device admin_chats msg_rank
        stored_text stored_risk st recips).1.events = st.events ∧
      (replayOwnerLoop cfg sendOk now email_id device admin_chats msg_rank
        stored_text stored_risk st recips).1.dedup = st.dedup ∧
      (replayOwnerLoop cfg sendOk now email_id device admin_chats msg_rank
        stored_text stored_risk st recips).1.assets = st.assets := by
  intro recips
  induction recips with
  | nil => intro st; exact ⟨rfl, rfl, rfl, rfl⟩
  | cons rc rest ih =>
    intro st
    obtain ⟨r_chat, r_user, min_risk, enabled⟩ := rc
    cases hen : enabled
    · simpa [replayOwnerLoop, hen] using ih st
    · by_cases h2 : r_chat ∈ admin_chats
      · simpa [replayOwnerLoop, hen, h2] using ih st
      · by_cases h3 : msg_rank < riskRankGet (mrNorm min_risk) 2
        · simpa [replayOwnerLoop, hen, h2, h3] using ih st
        · by_cases h4 : has_telegram_message st email_id r_chat
          · simpa [replayOwnerLoop, hen, h2, h3, h4] using ih st
          · by_cases h5 : sendOk r_chat
            · have hadd := add_telegram_message_analysis_unchanged st email_id device
                r_chat 0 now stored_risk cfg.enable_llm
                (if cfg.enable_llm then some cfg.openai_model else none) none stored_text
              have hrec := ih (add_telegram_message st email_id device r_chat 0 now
                stored_risk cfg.enable_llm
                (if cfg.enable_llm then some cfg.openai_model else none) none stored_text)
              simp [replayOwnerLoop, hen, h2, h3, h4, h5, hrec.1, hrec.2.1, hrec.2.2.1,
                hrec.2.2.2, hadd.1, hadd.2.1, hadd.2.2.1, hadd.2.2.2]
            · simpa [replayOwnerLoop, hen, h2, h3, h4, h5] using ih st

/-- C7: re-processing an already-ingested message UID leaves the message
table (including the stored raw body), the event table, the dedup state and
the asset registry exactly as they were — no second row is created and
extraction-based classification never runs — and processing takes the replay
delivery path only. -/
theorem replay_never_reingests (cfg : PollSettings) (h : String → String)
    (sendOk : Int → Bool) (llmText : Option String) (now : Int) (st : DBState)
    (parsed : ParsedEmail)
    (hex : (st.emails.find? (fun e => e.uid == parsed.uid)).isSome = true) :
    (processMessage cfg h sendOk llmText now st parsed).st.emails = st.emails ∧
    (processMessage cfg h sendOk llmText now st parsed).st.events = st.events ∧
    (processMessage cfg h sendOk llmText now st parsed).st.dedup = st.dedup ∧
    (processMessage cfg h sendOk llmText now st parsed).st.assets = st.assets ∧
    (processMessage cfg h sendOk llmText now st parsed).outcome = .replayed := by
  rcases hfind : st.emails.find? (fun e => e.uid == parsed.uid) with _ | e
  · rw [hfind] at hex; simp at hex
  · have hstep : processMessage cfg h sendOk llmText now st parsed =
        processReplay cfg sendOk now st parsed e.id := by
      unfold processMessage upsert_email
      rw [hfind]
      rfl
    rw [hstep]
    unfold processReplay
    by_cases hadm : admin_chats_of cfg = []
    · simp [hadm]
    · rw [if_neg hadm]
      rcases hlast : get_latest_telegram_message_for_email st e.id with _ | p
      · exact ⟨rfl, rfl, rfl, rfl, rfl⟩
      · obtain ⟨stored_text, stored_risk⟩ := p
        have hloop := replayOwnerLoop_analysis_unchanged cfg sendOk now e.id
          parsed.event.device (admin_chats_of cfg)
          (riskRankGet (pyupper stored_risk) 0) stored_text stored_risk
          (list_recipients_for_device st parsed.event.device) st
        exact ⟨hloop.1, hloop.2.1, hloop.2.2.1, hloop.2.2.2, rfl⟩

/-- Witness for C7: a one-row store re-fed the same UID keeps everything and
replays. -/
theorem replay_never_reingests_witness :
    (processMessage
        ⟨true, some 1, [], 600, 3, false, ""⟩ id (fun _ => true) none 0
        { emails := [⟨1, "u1", none, none, none, none, "raw body", false, none⟩],
          nextEmailId := 2 }
        ⟨"u1", none, none, none, none, "raw body", {}⟩).st.emails =
      [⟨1, "u1", none, none, none, none, "raw body", false, none⟩] ∧
    (processMessage
        ⟨true, some 1, [], 600, 3, false, ""⟩ id (fun _ => true) none 0
        { emails := [⟨1, "u1", none, none, none, none, "raw body", false, none⟩],
          nextEmailId := 2 }
        ⟨"u1", none, none, none, none, "raw body", {}⟩).outcome = .replayed := by
  have hres := replay_never_reingests
    ⟨true, some 1, [], 600, 3, false, ""⟩ id (fun _ => true) none 0
    { emails := [⟨1, "u1", none, none, none, none, "raw body", false, none⟩],
      nextEmailId := 2 }
    ⟨"u1", none, none, none, none, "raw body", {}⟩ (by decide)
  exact ⟨hres.1, hres.2.2.2.2⟩

/-- C6 (code bug): when a message failed admin delivery in an earlier cycle,
its email row exists but it has no stored Telegram message; re-fetching it
enters the replay branch, which acknowledges the UID up front and then —
finding no stored delivery — skips the message entirely: the store is
untouched, nothing is sent, and control never falls through to
classification/dispatch (contradicting the spec and the source's own
"allow retry later" comment). -/
theorem failed_delivery_replay_skips_and_acks (cfg : PollSettings)
    (h : String → String) (sendOk : Int → Bool) (llmText : Option String)
    (now : Int) (st : DBState) (parsed : ParsedEmail) (e : EmailRow)
    (hfind : st.emails.find? (fun x => x.uid == parsed.uid) = some e)
    (hstored : st.tgMessages.filter (fun t => t.email_id == e.id) = []) :
    (processMessage cfg h sendOk llmText now st parsed).st = st ∧
    (processMessage cfg h sendOk llmText now st parsed).ack =
      (if cfg.imap_mark_seen then [parsed.uid] else []) ∧
    (processMessage cfg h sendOk llmText now st parsed).adminSends = [] ∧
    (processMessage cfg h sendOk llmText now st parsed).ownerSends = [] ∧
    (processMessage cfg h sendOk llmText now st parsed).outcome = .replayed := by
  have hstep : processMessage cfg h sendOk llmText now st parsed =
      processReplay cfg sendOk now st parsed e.id := by
    unfold processMessage upsert_email
    rw [hfind]
    rfl
  have hlast : get_latest_telegram_message_for_email st e.id = none := by
    unfold get_latest_telegram_message_for_email
    rw [hstored]
    rfl
  rw [hstep]
  unfold processReplay
  by_cases hadm : admin_chats_of cfg = []
  · rw [if_pos hadm]
    exact ⟨rfl, rfl, rfl, rfl, rfl⟩
  · rw [if_neg hadm, hlast]
    exact ⟨rfl, rfl, rfl, rfl, rfl⟩

/-- Witness for C6: concrete store whose only email has no stored delivery;
with delivery failing everywhere, the replay pass still acks the UID and
sends nothing. -/
theorem failed_delivery_replay_skips_and_acks_witness :
    (processMessage ⟨true, some 1, [], 600, 3, false, ""⟩ id (fun _ => false) none 0
        { emails := [⟨1, "u7", none, none, none, none, "raw", false, none⟩],
          nextEmailId := 2 }
        ⟨"u7", none, none, none, none, "raw", {}⟩).st =
      { emails := [⟨1, "u7", none, none, none, none, "raw", false, none⟩],
        nextEmailId := 2 } ∧
    (processMessage ⟨true, some 1, [], 600, 3, false, ""⟩ id (fun _ => false) none 0
        { emails := [⟨1, "u7", none, none, none, none, "raw", false, none⟩],
          nextEmailId := 2 }
        ⟨"u7", none, none, none, none, "raw", {}⟩).ack =
      (if (true : Bool) then ["u7"] else []) ∧
    (processMessage ⟨true, some 1, [], 600, 3, false, ""⟩ id (fun _ => false) none 0
        { emails := [⟨1, "u7", none, none, none, none, "raw", false, none⟩],
          nextEmailId := 2 }
        ⟨"u7", none, none, none, none, "raw", {}⟩).adminSends = [] ∧
    (processMessage ⟨true, some 1, [], 600, 3, false, ""⟩ id (fun _ => false) none 0
        { emails := [⟨1, "u7", none, none, none, none, "raw", false, none⟩],
          nextEmailId := 2 }
        ⟨"u7", none, none, none, none, "raw", {}⟩).ownerSends = [] ∧
    (processMessage ⟨true, some 1, [], 600, 3, false, ""⟩ id (fun _ => false) none 0
        { emails := [⟨1, "u7", none, none, none, none, "raw", false, none⟩],
          nextEmailId := 2 }
        ⟨"u7", none, none, none, none, "raw", {}⟩).outcome = .replayed :=
  failed_delivery_replay_skips_and_acks
    ⟨true, some 1, [], 600, 3, false, ""⟩ id (fun _ => false) none 0
    { emails := [⟨1, "u7", none, none, none, none, "raw", false, none⟩],
      nextEmailId := 2 }
    ⟨"u7", none, none, none, none, "raw", {}⟩
    ⟨1, "u7", none, none, none, none, "raw", false, none⟩
    (by decide) (by decide)

theorem newOwnerLoop_send_origin (cfg : PollSettings) (sendOk : Int → Bool)
    (now : Int) (email_id : Int) (device : Option String) (admin_chats : List Int)
    (msg_rank : Nat) (dispatch : DispatchMessage) (llm_fallback : Option String) :
    ∀ (recips : List (Int × Int × String × Bool)) (st : DBState) (s : SendRec),
      s ∈ (newOwnerLoop cfg sendOk now email_id device admin_chats msg_rank dispatch
            llm_fallback st recips).2 →
      ∃ rec ∈ recips, rec.1 = s.chat_id ∧
        s.risk_level = riskValue dispatch.risk_level ∧
        riskRankGet (mrNorm rec.2.2.1) 2 ≤ msg_rank := by
  intro recips
  induction recips with
  | nil => intro st s hs; simp [newOwnerLoop] at hs
  | cons rc rest ih =>
    intro st s hs
    obtain ⟨r_chat, r_user, min_risk, enabled⟩ := rc
    cases hen : enabled
    · rw [hen] at hs
      simp only [newOwnerLoop, Bool.not_false, if_pos] at hs
      obtain ⟨rec, hmem, hrest⟩ := ih st s hs
      exact ⟨rec, List.mem_cons_of_mem _ hmem, hrest⟩
    · rw [hen] at hs
      by_cases h2 : r_chat ∈ admin_chats
      · simp [newOwnerLoop, h2] at hs
        obtain ⟨rec, hmem, hrest⟩ := ih st s hs
        exact ⟨rec, List.mem_cons_of_mem _ hmem, hrest⟩
      · by_cases h3 : msg_rank < riskRankGet (mrNorm min_risk) 2
        · simp [newOwnerLoop, h2, h3] at hs
          obtain ⟨rec, hmem, hrest⟩ := ih st s hs
          exact ⟨rec, List.mem_cons_of_mem _ hmem, hrest⟩
        · by_cases h5 : sendOk r_chat
          · simp [newOwnerLoop, h2, h3, h5] at hs
            rcases hs with hhead | htail
            · refine ⟨(r_chat, r_user, min_risk, true), List.mem_cons_self _ _, ?_, ?_, ?_⟩
              · rw [hhead]
              · rw [hhead]
              · exact Nat.not_lt.mp h3
            · obtain ⟨rec, hmem, hrest⟩ := ih _ s htail
              exact ⟨rec, List.mem_cons_of_mem _ hmem, hrest⟩
          · simp [newOwnerLoop, h2, h3, h5] at hs
            obtain ⟨rec, hmem, hrest⟩ := ih st s hs
            exact ⟨rec, List.mem_cons_of_mem _ hmem, hrest⟩

theorem replayOwnerLoop_send_origin (cfg : PollSettings) (sendOk : Int → Bool)
    (now : Int) (email_id : Int) (device : Option String) (admin_chats : List Int)
    (msg_rank : Nat) (stored_text stored_risk : String) :
    ∀ (recips : List (Int × Int × String × Bool)) (st : DBState) (s : SendRec),
      s ∈ (replayOwnerLoop cfg sendOk now email_id device admin_chats msg_rank
            stored_text stored_risk st recips).2 →
      ∃ rec ∈ recips, rec.1 = s.chat_id ∧
        s.risk_level = stored_risk ∧
        riskRankGet (mrNorm rec.2.2.1) 2 ≤ msg_rank := by
  intro recips
  induction recips with
  | nil => intro st s hs; simp [replayOwnerLoop] at hs
  | cons rc rest ih =>
    intro st s hs
    obtain ⟨r_chat, r_user, min_risk, enabled⟩ := rc
    cases hen : enabled
    · rw [hen] at hs
      simp only [replayOwnerLoop, Bool.not_false, if_pos] at hs
      obtain ⟨rec, hmem, hrest⟩ := ih st s hs
      exact ⟨rec, List.mem_cons_of_mem _ hmem, hrest⟩
    · rw [hen] at hs
      by_cases h2 : r_chat ∈ admin_chats
      · simp [replayOwnerLoop, h2] at hs
        obtain ⟨rec, hmem, hrest⟩ := ih st s hs
        exact ⟨rec, List.mem_cons_of_mem _ hmem, hrest⟩
      · by_cases h3 : msg_rank < riskRankGet (mrNorm min_risk) 2
        · simp [replayOwnerLoop, h2, h3] at hs
          obtain ⟨rec, hmem, hrest⟩ := ih st s hs
          exact ⟨rec, List.mem_cons_of_mem _ hmem, hrest⟩
        · by_cases h4 : has_telegram_message st email_id r_chat
          · simp [replayOwnerLoop, h2, h3, h4] at hs
            obtain ⟨rec, hmem, hrest⟩ := ih st s hs
            exact ⟨rec, List.mem_cons_of_mem _ hmem, hrest⟩
          · by_cases h5 : sendOk r_chat
            · simp [replayOwnerLoop, h2, h3, h4, h5] at hs
              rcases hs with hhead | htail
              · refine ⟨(r_chat, r_user, min_risk, true), List.mem_cons_self _ _, ?_, ?_, ?_⟩
                · rw [hhead]
                · rw [hhead]
                · exact Nat.not_lt.mp h3
              · obtain ⟨rec, hmem, hrest⟩ := ih _ s htail
                exact ⟨rec, List.mem_cons_of_mem _ hmem, hrest⟩
            · simp [replayOwnerLoop, h2, h3, h4, h5] at hs
              obtain ⟨rec, hmem, hrest⟩ := ih st s hs
              exact ⟨rec, List.mem_cons_of_mem _ hmem, hrest⟩

theorem eq_of_pairwise_fst {l : List (Int × Int × String × Bool)}
    (hp : l.Pairwise (fun a b => a.1 ≠ b.1)) {x y : Int × Int × String × Bool}
    (hx : x ∈ l) (hy : y ∈ l) (hk : x.1 = y.1) : x = y := by
  induction l with
  | nil => cases hx
  | cons a t ih =>
    rcases List.pairwise_cons.mp hp with ⟨ha, ht⟩
    rcases List.mem_cons.mp hx with rfl | hx'
    · rcases List.mem_cons.mp hy with rfl | hy'
      · rfl
      · exact absurd hk (ha y hy')
    · rcases List.mem_cons.mp hy with rfl | hy'
      · exact absurd hk.symm (ha x hx')
      · exact ih ht hx' hy'

theorem processReplay_owner_spec (cfg : PollSettings) (sendOk : Int → Bool)
    (now : Int) (st : DBState) (parsed : ParsedEmail) (email_id : Int) (s : SendRec)
    (hs : s ∈ (processReplay cfg sendOk now st parsed email_id).ownerSends) :
    ∃ rec ∈ (processReplay cfg sendOk now st parsed email_id).recipients_used,
      rec.1 = s.chat_id ∧
      riskRankGet (mrNorm rec.2.2.1) 2 ≤ riskRankGet (pyupper s.risk_level) 0 := by
  simp only [processReplay] at hs ⊢
  split at hs
  · simp at hs
  · next hadm =>
    split at hs
    · simp at hs
    · next stored_text stored_risk heq =>
      rw [if_neg hadm]
      obtain ⟨rec, hmem, hchat, hrisk, hrank⟩ :=
        replayOwnerLoop_send_origin cfg sendOk now email_id parsed.event.device
          (admin_chats_of cfg) _ _ _ _ _ s hs
      refine ⟨rec, hmem, hchat, ?_⟩
      rw [hrisk]
      exact hrank

theorem processNew_owner_spec (cfg : PollSettings) (h : String → String)
    (sendOk : Int → Bool) (llmText : Option String) (now : Int) (st : DBState)
    (parsed : ParsedEmail) (email_id : Int) (s : SendRec)
    (hs : s ∈ (processNew cfg h sendOk llmText now st parsed email_id).ownerSends) :
    ∃ rec ∈ (processNew cfg h sendOk llmText now st parsed email_id).recipients_used,
      rec.1 = s.chat_id ∧
      riskRankGet (mrNorm rec.2.2.1) 2 ≤ riskRankGet (pyupper s.risk_level) 0 := by
  simp only [processNew] at hs ⊢
  generalize (if cfg.enable_llm = true then llmText else none) = llmT at hs ⊢
  generalize (if cfg.imap_mark_seen = true then [parsed.uid] else ([] : List String)) = ackL
    at hs ⊢
  split at hs
  · simp at hs
  · next hsendT =>
    rw [if_neg hsendT]
    split at hs
    · simp at hs
    · next hadm =>
      rw [if_neg hadm]
      split at hs
      · simp at hs
      · next hae =>
        rw [if_neg hae]
        obtain ⟨rec, hmem, hchat, hrisk, hrank⟩ :=
          newOwnerLoop_send_origin cfg sendOk now email_id parsed.event.device
            (admin_chats_of cfg) _ _ _ _ _ s hs
        refine ⟨rec, hmem, hchat, ?_⟩
        rw [hrisk]
        exact hrank

theorem processMessage_owner_send_spec (cfg : PollSettings) (h : String → String)
    (sendOk : Int → Bool) (llmText : Option String) (now : Int) (st : DBState)
    (parsed : ParsedEmail) (s : SendRec)
    (hs : s ∈ (processMessage cfg h sendOk llmText now st parsed).ownerSends) :
    ∃ rec ∈ (processMessage cfg h sendOk llmText now st parsed).recipients_used,
      rec.1 = s.chat_id ∧
      riskRankGet (mrNorm rec.2.2.1) 2 ≤ riskRankGet (pyupper s.risk_level) 0 := by
  rcases hfind : st.emails.find? (fun e => e.uid == parsed.uid) with _ | e
  · have hstep : processMessage cfg h sendOk llmText now st parsed =
        processNew cfg h sendOk llmText now
          { st with
            emails := st.emails ++
              [⟨st.nextEmailId, parsed.uid, parsed.message_id, parsed.subject,
                parsed.from_email, parsed.date, parsed.raw_text, false, none⟩],
            nextEmailId := st.nextEmailId + 1 }
          parsed st.nextEmailId := by
      unfold processMessage upsert_email
      rw [hfind]
      rfl
    rw [hstep] at hs ⊢
    exact processNew_owner_spec cfg h sendOk llmText now _ parsed _ s hs
  · have hstep : processMessage cfg h sendOk llmText now st parsed =
        processReplay cfg sendOk now st parsed e.id := by
      unfold processMessage upsert_email
      rw [hfind]
      rfl
    rw [hstep] at hs ⊢
    exact processReplay_owner_spec cfg sendOk now st parsed e.id s hs

/-- C8: the risk ranking is total and strictly monotonic along
INFO < LOW < MEDIUM < HIGH < CRITICAL, and on every path (fresh dispatch and
replay) a per-device recipient bound with a minimum-risk threshold never
receives a message whose rank is below that threshold (recipient rows carry
distinct chat ids per device, as the store's unique (asset, chat) constraint
guarantees). -/
theorem dispatch_respects_min_risk :
    (riskRankGet "INFO" 0 < riskRankGet "LOW" 0 ∧
     riskRankGet "LOW" 0 < riskRankGet "MEDIUM" 0 ∧
     riskRankGet "MEDIUM" 0 < riskRankGet "HIGH" 0 ∧
     riskRankGet "HIGH" 0 < riskRankGet "CRITICAL" 0) ∧
    ∀ (cfg : PollSettings) (h : String → String) (sendOk : Int → Bool)
      (llmText : Option String) (now : Int) (st : DBState) (parsed : ParsedEmail)
      (r : Int × Int × String × Bool) (s : SendRec),
      (processMessage cfg h sendOk llmText now st parsed).recipients_used.Pairwise
        (fun a b => a.1 ≠ b.1) →
      r ∈ (processMessage cfg h sendOk llmText now st parsed).recipients_used →
      s ∈ (processMessage cfg h sendOk llmText now st parsed).ownerSends →
      s.chat_id = r.1 →
      riskRankGet (mrNorm r.2.2.1) 2 ≤ riskRankGet (pyupper s.risk_level) 0 := by
  constructor
  · exact ⟨by decide, by decide, by decide, by decide⟩
  · intro cfg h sendOk llmText now st parsed r s hpw hr hsend hchat
    obtain ⟨rec, hmem, hreck, hrank⟩ :=
      processMessage_owner_send_spec cfg h sendOk llmText now st parsed s hsend
    have : rec = r := eq_of_pairwise_fst hpw hmem hr (by rw [hreck, hchat])
    rw [← this]
    exact hrank

/-- Witness for C8: a SERVER asset with a bound INFO-threshold owner; the HIGH
alert reaches the owner and the rank comparison holds at the sent record. -/
theorem dispatch_respects_min_risk_witness :
    riskRankGet
        (mrNorm "INFO") 2 ≤
      riskRankGet
        (pyupper
          ((processMessage ⟨true, some 1, [], 600, 3, false, "m"⟩ id (fun _ => true)
              none 0
              { assets := [⟨1, "srv1", "SERVER"⟩],
                recipients := [⟨1, 1, 2, 5, 1, "INFO", 0⟩],
                nextAssetId := 2, nextRecipientId := 2 }
              ⟨"u1", none, none, none, none, "raw",
                { device := some "srv1", vendor_severity := some "High" }⟩).ownerSends.headD
            ⟨0, "", ""⟩).risk_level) 0 :=
  dispatch_respects_min_risk.2 ⟨true, some 1, [], 600, 3, false, "m"⟩ id (fun _ => true)
    none 0
    { assets := [⟨1, "srv1", "SERVER"⟩],
      recipients := [⟨1, 1, 2, 5, 1, "INFO", 0⟩],
      nextAssetId := 2, nextRecipientId := 2 }
    ⟨"u1", none, none, none, none, "raw",
      { device := some "srv1", vendor_severity := some "High" }⟩
    (2, 5, "INFO", true) _ (by decide) (by decide) (by decide) (by decide)

/-- C10: the recipient-binding operation stores only min-risk thresholds from
{INFO, MEDIUM, HIGH, CRITICAL}; any other input — including the otherwise
valid level LOW — is silently replaced by MEDIUM, so no recipient row ever
carries a LOW threshold. -/
theorem upsert_recipient_min_risk_whitelist :
    (∀ mr : String, normalize_min_risk mr = "INFO" ∨ normalize_min_risk mr = "MEDIUM" ∨
       normalize_min_risk mr = "HIGH" ∨ normalize_min_risk mr = "CRITICAL") ∧
    normalize_min_risk "LOW" = "MEDIUM" ∧
    ∀ (st : DBState) (aid cid uid : Int) (mr : String) (en : Bool) (now : Int)
      (r : AssetRecipientRow),
      r ∈ (upsert_asset_recipient st aid cid uid mr en now).recipients →
      r ∈ st.recipients ∨ r.min_risk = normalize_min_risk mr := by
  refine ⟨?_, by decide, ?_⟩
  · intro mr
    simp only [normalize_min_risk]
    by_cases hcond : pyupper (pystrip (if mr = "" then "MEDIUM" else mr)) = "INFO" ∨
        pyupper (pystrip (if mr = "" then "MEDIUM" else mr)) = "MEDIUM" ∨
        pyupper (pystrip (if mr = "" then "MEDIUM" else mr)) = "HIGH" ∨
        pyupper (pystrip (if mr = "" then "MEDIUM" else mr)) = "CRITICAL"
    · rw [if_pos hcond]
      tauto
    · rw [if_neg hcond]
      tauto
  · intro st aid cid uid mr en now r hr
    unfold upsert_asset_recipient at hr
    rcases hfind : st.recipients.find? (fun x => x.asset_id == aid && x.chat_id == cid)
        with _ | ex
    all_goals rw [hfind] at hr
    · simp only at hr
      rcases List.mem_append.mp hr with hold | hnew
      · exact Or.inl hold
      · right
        rcases List.mem_singleton.mp hnew with rfl
        rfl
    · simp only at hr
      obtain ⟨x, hxmem, hxeq⟩ := List.mem_map.mp hr
      by_cases hid : (x.id == ex.id) = true
      · rw [if_pos hid] at hxeq
        right
        rw [← hxeq]
      · rw [if_neg hid] at hxeq
        exact Or.inl (hxeq ▸ hxmem)

/-- Witness for C10: binding with requested threshold LOW stores MEDIUM. -/
theorem upsert_recipient_min_risk_whitelist_witness :
    (⟨1, 7, 8, 9, 1, "MEDIUM", 0⟩ : AssetRecipientRow) ∈ (({} : DBState)).recipients ∨
    (⟨1, 7, 8, 9, 1, "MEDIUM", 0⟩ : AssetRecipientRow).min_risk = normalize_min_risk "LOW" :=
  upsert_recipient_min_risk_whitelist.2.2 {} 7 8 9 "LOW" true 0
    ⟨1, 7, 8, 9, 1, "MEDIUM", 0⟩ (by decide)

end Socana
